import Mathlib

/-!
Shallow embedding of `h5.bluetooth.hci.inode` (src/lib/index.js), a decoder for
iNode BLE manufacturer-specific-data (MSD) advertisement payloads.

Modelling conventions:
  * A Node `Buffer` is a list of bytes (`Fin 256`).
  * JS index access `buffer[i]` yields `undefined` out of range; we model the
    read as `Option Nat` (`none` = `undefined`).  In JS bitwise operators,
    `undefined` coerces to `0`, modelled by `Option.getD 0` at each use site.
  * Node `readUInt16LE` / `readInt16LE` throw a `RangeError` out of range; we
    model them as `Option`-returning reads, and the decoders that call them
    surface `DecodeError.rangeError`.
  * A thrown JS exception leaves the (mutated-so-far) record alive, so fallible
    decoders return `Except (DecodeError × Msd) Msd`: the error also carries
    the record exactly as it stood when the exception was raised.
  * JS numbers are modelled as exact rationals (`ℚ`); the only arithmetic the
    code performs on them is a single division of a 16-bit integer.
  * The record object mutated by the decoders is modelled as a structure of
    `Option` fields (`none` = key absent), threaded functionally.
  * `EirDataType.ManufacturerSpecificData` comes from the external collaborator
    `h5.bluetooth.hci` (out of scope per the spec); it is the standard BLE EIR
    tag 0xFF for manufacturer-specific data.
-/

namespace INode

abbrev Byte := Fin 256

abbrev Buffer := List Byte

/-- `DeviceModel` enum of src/lib/index.js: the only model is `Nav = 0x89`. -/
def DeviceModel.Nav : Nat := 0x89

/-- External constant from `h5.bluetooth.hci`: the EIR data-type tag for
manufacturer-specific data. -/
def EirDataType.ManufacturerSpecificData : Nat := 0xFF

/-- JS `buffer[i]`: `undefined` (`none`) when the index is negative or past the
end, otherwise the byte value. -/
def jsByte (buffer : Buffer) (i : Int) : Option Nat :=
  if 0 ≤ i then buffer[i.toNat]?.map Fin.val else none

/-- Node `buffer.readUInt16LE(i)`: little-endian unsigned 16-bit read; `none`
models the `RangeError` thrown when either byte is out of range. -/
def readUInt16LE (buffer : Buffer) (i : Int) : Option Nat :=
  match jsByte buffer i, jsByte buffer (i + 1) with
  | some lo, some hi => some (lo + 256 * hi)
  | _, _ => none

/-- Two's-complement reinterpretation of an unsigned 16-bit value. -/
def toInt16 (v : Nat) : Int :=
  if v < 0x8000 then (v : Int) else (v : Int) - 0x10000

/-- Node `buffer.readInt16LE(i)`: little-endian signed 16-bit read. -/
def readInt16LE (buffer : Buffer) (i : Int) : Option Int :=
  (readUInt16LE buffer i).map toInt16

/-- An `{x, y, z}` triple as written by the accelerometer / magnetic-field
decoders. -/
structure Vec3 where
  x : ℚ
  y : ℚ
  z : ℚ
deriving DecidableEq

/-- The `msd.alarms` object: `lowBattery` is always present; the ten extended
flags are present (`some`) only when decoded with an extended offset. -/
structure Alarms where
  lowBattery : Bool
  moveAccelerometer : Option Bool := none
  levelAccelerometer : Option Bool := none
  levelTemperature : Option Bool := none
  levelHumidity : Option Bool := none
  contactChange : Option Bool := none
  moveStopped : Option Bool := none
  moveGTimer : Option Bool := none
  levelAccelerometerChange : Option Bool := none
  levelMagnetChange : Option Bool := none
  levelMagnetTimer : Option Bool := none
deriving DecidableEq

/-- The decoded MSD record (`INodeDeviceMsd`); `none` models an absent key. -/
structure Msd where
  type : Option Nat := none
  typeLabel : Option String := none
  companyIdentifier : Option Nat := none
  model : Option Nat := none
  modelLabel : Option String := none
  position : Option Vec3 := none
  magneticField : Option Vec3 := none
  rtto : Option Bool := none
  alarms : Option Alarms := none
deriving DecidableEq

/-- Errors the decoders can raise: the unknown-device-model `Error` thrown by
`decodeMsd` (carrying `buffer[1]`, `none` = `undefined`), and Node's
`RangeError` from an out-of-range 16-bit read. -/
inductive DecodeError where
  | unknownDeviceModel (identifier : Option Nat)
  | rangeError
deriving DecidableEq

instance {ε α : Type _} [DecidableEq ε] [DecidableEq α] : DecidableEq (Except ε α)
  | .error e, .error f =>
    if h : e = f then .isTrue (h ▸ rfl) else .isFalse (fun hc => h (Except.error.inj hc))
  | .error _, .ok _ => .isFalse Except.noConfusion
  | .ok _, .error _ => .isFalse Except.noConfusion
  | .ok a, .ok b =>
    if h : a = b then .isTrue (h ▸ rfl) else .isFalse (fun hc => h (Except.ok.inj hc))

/-- `decodeAccelerometer` (src/lib/index.js:87): `position` from signed 16-bit
little-endian reads at offsets 2, 4, 6, each divided by 16000. -/
def decodeAccelerometer (buffer : Buffer) (msd : Msd) :
    Except (DecodeError × Msd) Msd :=
  match readInt16LE buffer 2, readInt16LE buffer 4, readInt16LE buffer 6 with
  | some x, some y, some z =>
      .ok { msd with
        position := some ⟨(x : ℚ) / 16000, (y : ℚ) / 16000, (z : ℚ) / 16000⟩ }
  | _, _, _ => .error (.rangeError, msd)

/-- `decodeMagneticField` (src/lib/index.js:100): `magneticField` from signed
16-bit little-endian reads at offsets 8, 10, 12, each divided by 10000. -/
def decodeMagneticField (buffer : Buffer) (msd : Msd) :
    Except (DecodeError × Msd) Msd :=
  match readInt16LE buffer 8, readInt16LE buffer 10, readInt16LE buffer 12 with
  | some x, some y, some z =>
      .ok { msd with
        magneticField := some ⟨(x : ℚ) / 10000, (y : ℚ) / 10000, (z : ℚ) / 10000⟩ }
  | _, _, _ => .error (.rangeError, msd)

/-- `decodeRtto` (src/lib/index.js:113): `msd.rtto = !!(buffer[i] & 0x02)`.
Never throws: an out-of-range `buffer[i]` is `undefined`, which coerces to 0. -/
def decodeRtto (buffer : Buffer) (i : Int) (msd : Msd) : Msd :=
  { msd with rtto := some (((jsByte buffer i).getD 0 &&& 0x02) != 0) }

/-- The battery contribution to the alarm mask:
`(batteryByte << 13) & 0x8000` (src/lib/index.js:128). -/
def batteryBits (b : Nat) : Nat := (b <<< 13) &&& 0x8000

/-- `decodeAlarms` (src/lib/index.js:126): combined mask
`extended | battery`, `lowBattery` from bit 0x8000, and — only when
`extendedI !== -1` — the ten extended flags from bits 0x01 … 0x200. -/
def decodeAlarms (buffer : Buffer) (batteryI extendedI : Int) (msd : Msd) :
    Except (DecodeError × Msd) Msd :=
  let battery := batteryBits (if batteryI = -1 then 0 else (jsByte buffer batteryI).getD 0)
  match if extendedI = -1 then some 0 else readUInt16LE buffer extendedI with
  | none => .error (.rangeError, msd)
  | some extended =>
    let alarms := extended ||| battery
    if extendedI = -1 then
      .ok { msd with alarms := some { lowBattery := (alarms &&& 0x8000) != 0 } }
    else
      .ok { msd with alarms := some {
        lowBattery := (alarms &&& 0x8000) != 0,
        moveAccelerometer := some ((alarms &&& 0x01) != 0),
        levelAccelerometer := some ((alarms &&& 0x02) != 0),
        levelTemperature := some ((alarms &&& 0x04) != 0),
        levelHumidity := some ((alarms &&& 0x08) != 0),
        contactChange := some ((alarms &&& 0x10) != 0),
        moveStopped := some ((alarms &&& 0x20) != 0),
        moveGTimer := some ((alarms &&& 0x40) != 0),
        levelAccelerometerChange := some ((alarms &&& 0x80) != 0),
        levelMagnetChange := some ((alarms &&& 0x100) != 0),
        levelMagnetTimer := some ((alarms &&& 0x200) != 0) } }

/-- The decoder stored at `msdDecoders[DeviceModel.Nav]`
(src/lib/index.js:70-79): sets `model` / `modelLabel`, then runs the field
decoders in order with `rtto` offset 0, `batteryI = 0`, `extendedI = -1`. -/
def navMsdDecoder (buffer : Buffer) (msd : Msd) : Except (DecodeError × Msd) Msd := do
  let msd := { msd with
    model := some DeviceModel.Nav, modelLabel := some "iNode Nav" }
  let msd ← decodeAccelerometer buffer msd
  let msd ← decodeMagneticField buffer msd
  let msd := decodeRtto buffer 0 msd
  decodeAlarms buffer 0 (-1) msd

/-- `exports.msdDecoders`: the model registry, keyed by the device-model byte;
only `Nav = 0x89` is registered. -/
def msdDecoders (deviceModel : Nat) :
    Option (Buffer → Msd → Except (DecodeError × Msd) Msd) :=
  if deviceModel = DeviceModel.Nav then some navMsdDecoder else none

/-- `exports.decodeMsd` (src/lib/index.js:42-64).  The result's error case
also carries the caller-supplied record (`Option Msd`) as it stood when the
exception was thrown: the unknown-model error is raised before any write. -/
def decodeMsd (buffer : Buffer) (msd? : Option Msd) :
    Except (DecodeError × Option Msd) Msd :=
  let deviceModel := jsByte buffer 1
  match deviceModel.bind msdDecoders with
  | none => .error (.unknownDeviceModel deviceModel, msd?)
  | some deviceModelDecoder =>
    match msd? with
    | some msd =>
        (deviceModelDecoder buffer msd).mapError (fun em => (em.1, some em.2))
    | none =>
      match readUInt16LE buffer 0 with
      | none => .error (.rangeError, none)
      | some companyIdentifier =>
        let msd : Msd := {
          type := some EirDataType.ManufacturerSpecificData,
          typeLabel := some "ManufacturerSpecificData",
          companyIdentifier := some companyIdentifier }
        (deviceModelDecoder buffer msd).mapError (fun em => (em.1, some em.2))

/-- The external EIR-decoder registry mutated by
`registerManufacturerSpecificDataDecoder`: a mapping from EIR data-type tag to
decoder function. -/
abbrev EirRegistry := Nat → Option (Buffer → Msd → Except (DecodeError × Msd) Msd)

/-- The wrapper function installed at the manufacturer-specific-data slot
(src/lib/index.js:19-32): dispatch on `buffer[1]`, else the previously
installed decoder, else no-op. -/
def installedMsdDecoder
    (originalDecoder : Option (Buffer → Msd → Except (DecodeError × Msd) Msd)) :
    Buffer → Msd → Except (DecodeError × Msd) Msd :=
  fun buffer msd =>
    let deviceModel := jsByte buffer 1
    match deviceModel.bind msdDecoders with
    | some deviceModelDecoder => deviceModelDecoder buffer msd
    | none =>
      match originalDecoder with
      | some od => od buffer msd
      | none => .ok msd

/-- `exports.registerManufacturerSpecificDataDecoder` (src/lib/index.js:16-34):
captures the original entry at the manufacturer-specific-data slot and
replaces it with the wrapper; all other slots are untouched. -/
def registerManufacturerSpecificDataDecoder (eirDataTypeDecoders : EirRegistry) :
    EirRegistry :=
  let originalDecoder := eirDataTypeDecoders EirDataType.ManufacturerSpecificData
  fun t =>
    if t = EirDataType.ManufacturerSpecificData then
      some (installedMsdDecoder originalDecoder)
    else eirDataTypeDecoders t

/-- The record produced by a successful run of the Nav pipeline on `msd`, with
`x y z` / `mx my mz` the six signed 16-bit reads. -/
def navRec (buffer : Buffer) (msd : Msd) (x y z mx my mz : Int) : Msd :=
  { msd with
    model := some DeviceModel.Nav,
    modelLabel := some "iNode Nav",
    position := some ⟨(x : ℚ) / 16000, (y : ℚ) / 16000, (z : ℚ) / 16000⟩,
    magneticField := some ⟨(mx : ℚ) / 10000, (my : ℚ) / 10000, (mz : ℚ) / 10000⟩,
    rtto := some (((jsByte buffer 0).getD 0 &&& 0x02) != 0),
    alarms := some { lowBattery :=
      ((0 ||| batteryBits ((jsByte buffer 0).getD 0)) &&& 0x8000) != 0 } }

lemma decodeMsd_unknown (buffer : Buffer) (msd? : Option Msd)
    (h : (jsByte buffer 1).bind msdDecoders = none) :
    decodeMsd buffer msd? = .error (.unknownDeviceModel (jsByte buffer 1), msd?) := by
  simp only [decodeMsd, h]

lemma decodeMsd_known_some (buffer : Buffer) (msd : Msd) (b : Nat)
    (hb : jsByte buffer 1 = some b)
    (d : Buffer → Msd → Except (DecodeError × Msd) Msd) (hd : msdDecoders b = some d) :
    decodeMsd buffer (some msd) =
      (d buffer msd).mapError (fun em => (em.1, some em.2)) := by
  simp only [decodeMsd, hb, Option.some_bind, hd]

lemma decodeMsd_known_none (buffer : Buffer) (b ci : Nat)
    (hb : jsByte buffer 1 = some b)
    (d : Buffer → Msd → Except (DecodeError × Msd) Msd) (hd : msdDecoders b = some d)
    (hci : readUInt16LE buffer 0 = some ci) :
    decodeMsd buffer none =
      (d buffer { type := some EirDataType.ManufacturerSpecificData,
                  typeLabel := some "ManufacturerSpecificData",
                  companyIdentifier := some ci }).mapError
        (fun em => (em.1, some em.2)) := by
  simp only [decodeMsd, hb, Option.some_bind, hd, hci]

/-- The ten extended alarm keys are all absent from an `Alarms` object. -/
def extendedAlarmsAbsent (a : Alarms) : Prop :=
  a.moveAccelerometer = none ∧ a.levelAccelerometer = none ∧
  a.levelTemperature = none ∧ a.levelHumidity = none ∧
  a.contactChange = none ∧ a.moveStopped = none ∧
  a.moveGTimer = none ∧ a.levelAccelerometerChange = none ∧
  a.levelMagnetChange = none ∧ a.levelMagnetTimer = none

/-- The 13-byte example buffer given in the specification. -/
def specExampleBuffer : Buffer :=
  [0x4C, 0x00, 0x89, 0x01, 0x00, 0xF8, 0xFF, 0x10, 0x00, 0x00, 0x00, 0x00, 0x00]

/-- The example buffer laid out as the code actually reads it: model byte
0x89 at index 1, accelerometer raw values 1, −8, 0 at offsets 2, 4, 6,
magnetic-field raw values 16, 0, 0 at offsets 8, 10, 12. -/
def navExampleBuffer : Buffer :=
  [0x4C, 0x89, 0x01, 0x00, 0xF8, 0xFF, 0x00, 0x00, 0x10, 0x00, 0x00, 0x00, 0x00, 0x00]

/-- The example buffer extended by one extra trailing byte 0xFF (outside every
declared field range of the Nav model). -/
def altBufferFF : Buffer := navExampleBuffer ++ [0xFF]

/-- The example buffer extended by one extra trailing byte 0x00. -/
def altBuffer00 : Buffer := navExampleBuffer ++ [0x00]

/-! ### Helper lemmas about the byte-level reads -/

lemma jsByte_nonneg (buffer : Buffer) (i : Int) (h0 : 0 ≤ i) :
    jsByte buffer i = buffer[i.toNat]?.map Fin.val := by
  simp [jsByte, h0]

lemma jsByte_eq_some (buffer : Buffer) (i : Int) (h0 : 0 ≤ i) (b : Byte)
    (hb : buffer[i.toNat]? = some b) : jsByte buffer i = some b.val := by
  simp [jsByte, h0, hb]

lemma getElem?_of_lt (buffer : Buffer) (i : Nat) (h : i < buffer.length) :
    ∃ b : Byte, buffer[i]? = some b := by
  rcases hb : buffer[i]? with _ | b
  · rw [List.getElem?_eq_none_iff] at hb
    omega
  · exact ⟨b, rfl⟩

lemma readUInt16LE_eq (buffer : Buffer) (i : Int) (h0 : 0 ≤ i) (lo hi : Byte)
    (hlo : buffer[i.toNat]? = some lo) (hhi : buffer[i.toNat + 1]? = some hi) :
    readUInt16LE buffer i = some (lo.val + 256 * hi.val) := by
  have h1 : (i + 1).toNat = i.toNat + 1 := by omega
  rw [readUInt16LE, jsByte_eq_some buffer i h0 lo hlo,
    jsByte_eq_some buffer (i + 1) (by omega) hi (by rw [h1]; exact hhi)]

lemma readUInt16LE_of_lt (buffer : Buffer) (i : Int) (h0 : 0 ≤ i)
    (h : i.toNat + 1 < buffer.length) :
    ∃ v : Nat, readUInt16LE buffer i = some v := by
  rcases getElem?_of_lt buffer i.toNat (by omega) with ⟨lo, hlo⟩
  rcases getElem?_of_lt buffer (i.toNat + 1) h with ⟨hi, hhi⟩
  exact ⟨lo.val + 256 * hi.val, readUInt16LE_eq buffer i h0 lo hi hlo hhi⟩

lemma readInt16LE_of_lt (buffer : Buffer) (i : Int) (h0 : 0 ≤ i)
    (h : i.toNat + 1 < buffer.length) :
    ∃ v : Int, readInt16LE buffer i = some v := by
  rcases readUInt16LE_of_lt buffer i h0 h with ⟨v, hv⟩
  refine ⟨toInt16 v, ?_⟩
  rw [readInt16LE, hv]
  rfl

lemma jsByte_congr (b1 b2 : Buffer) (n : Nat) (h : b1.take n = b2.take n)
    (i : Int) (hi : i.toNat < n) : jsByte b1 i = jsByte b2 i := by
  unfold jsByte
  by_cases h0 : 0 ≤ i
  · have e1 : b1[i.toNat]? = (b1.take n)[i.toNat]? := (List.getElem?_take_of_lt hi).symm
    have e2 : b2[i.toNat]? = (b2.take n)[i.toNat]? := (List.getElem?_take_of_lt hi).symm
    simp [h0, e1, e2, h]
  · simp [h0]

lemma readUInt16LE_congr (b1 b2 : Buffer) (n : Nat) (h : b1.take n = b2.take n)
    (i : Int) (hi : i.toNat + 1 < n) : readUInt16LE b1 i = readUInt16LE b2 i := by
  unfold readUInt16LE
  rw [jsByte_congr b1 b2 n h i (by omega), jsByte_congr b1 b2 n h (i + 1) (by omega)]

lemma readInt16LE_congr (b1 b2 : Buffer) (n : Nat) (h : b1.take n = b2.take n)
    (i : Int) (hi : i.toNat + 1 < n) : readInt16LE b1 i = readInt16LE b2 i := by
  unfold readInt16LE
  rw [readUInt16LE_congr b1 b2 n h i hi]

lemma jsByte_val_lt (buffer : Buffer) (i : Int) (b : Nat)
    (h : jsByte buffer i = some b) : b < 256 := by
  unfold jsByte at h
  by_cases h0 : 0 ≤ i
  · simp only [h0, if_true] at h
    rcases Option.map_eq_some'.mp h with ⟨v, _, hv⟩
    exact hv ▸ v.isLt
  · simp [h0] at h

/-! ### Evaluation lemmas for the field decoders -/

lemma decodeAccelerometer_eval (buffer : Buffer) (msd : Msd) (x y z : Int)
    (h2 : readInt16LE buffer 2 = some x) (h4 : readInt16LE buffer 4 = some y)
    (h6 : readInt16LE buffer 6 = some z) :
    decodeAccelerometer buffer msd = .ok { msd with
      position := some ⟨(x : ℚ) / 16000, (y : ℚ) / 16000, (z : ℚ) / 16000⟩ } := by
  rw [decodeAccelerometer, h2, h4, h6]

lemma decodeMagneticField_eval (buffer : Buffer) (msd : Msd) (x y z : Int)
    (h8 : readInt16LE buffer 8 = some x) (h10 : readInt16LE buffer 10 = some y)
    (h12 : readInt16LE buffer 12 = some z) :
    decodeMagneticField buffer msd = .ok { msd with
      magneticField := some ⟨(x : ℚ) / 10000, (y : ℚ) / 10000, (z : ℚ) / 10000⟩ } := by
  rw [decodeMagneticField, h8, h10, h12]

lemma decodeAlarms_neg1 (buffer : Buffer) (batteryI : Int) (msd : Msd) :
    decodeAlarms buffer batteryI (-1) msd = .ok { msd with
      alarms := some { lowBattery :=
        ((0 ||| batteryBits
            (if batteryI = -1 then 0 else (jsByte buffer batteryI).getD 0)) &&& 0x8000)
          != 0 } } := by
  rw [decodeAlarms]
  simp

lemma navMsdDecoder_eval (buffer : Buffer) (msd : Msd) (x y z mx my mz : Int)
    (h2 : readInt16LE buffer 2 = some x) (h4 : readInt16LE buffer 4 = some y)
    (h6 : readInt16LE buffer 6 = some z) (h8 : readInt16LE buffer 8 = some mx)
    (h10 : readInt16LE buffer 10 = some my) (h12 : readInt16LE buffer 12 = some mz) :
    navMsdDecoder buffer msd = .ok (navRec buffer msd x y z mx my mz) := by
  simp only [navMsdDecoder, Bind.bind, Except.bind, decodeAccelerometer,
    decodeMagneticField, decodeRtto, decodeAlarms_neg1, h2, h4, h6, h8, h10, h12]
  simp [navRec]

lemma navMsdDecoder_cases (buffer : Buffer) (msd : Msd) :
    (∃ x y z mx my mz,
      navMsdDecoder buffer msd = .ok (navRec buffer msd x y z mx my mz)) ∨
    ∃ m, navMsdDecoder buffer msd = .error (.rangeError, m) := by
  rcases h2 : readInt16LE buffer 2 with _ | x
  · right
    refine ⟨{ msd with model := some DeviceModel.Nav, modelLabel := some "iNode Nav" }, ?_⟩
    simp [navMsdDecoder, Bind.bind, Except.bind, decodeAccelerometer, h2]
  rcases h4 : readInt16LE buffer 4 with _ | y
  · right
    refine ⟨{ msd with model := some DeviceModel.Nav, modelLabel := some "iNode Nav" }, ?_⟩
    simp [navMsdDecoder, Bind.bind, Except.bind, decodeAccelerometer, h2, h4]
  rcases h6 : readInt16LE buffer 6 with _ | z
  · right
    refine ⟨{ msd with model := some DeviceModel.Nav, modelLabel := some "iNode Nav" }, ?_⟩
    simp [navMsdDecoder, Bind.bind, Except.bind, decodeAccelerometer, h2, h4, h6]
  rcases h8 : readInt16LE buffer 8 with _ | mx
  · right
    exact ⟨_, by simp [navMsdDecoder, Bind.bind, Except.bind, decodeAccelerometer,
      decodeMagneticField, h2, h4, h6, h8]; rfl⟩
  rcases h10 : readInt16LE buffer 10 with _ | my
  · right
    exact ⟨_, by simp [navMsdDecoder, Bind.bind, Except.bind, decodeAccelerometer,
      decodeMagneticField, h2, h4, h6, h8, h10]; rfl⟩
  rcases h12 : readInt16LE buffer 12 with _ | mz
  · right
    exact ⟨_, by simp [navMsdDecoder, Bind.bind, Except.bind, decodeAccelerometer,
      decodeMagneticField, h2, h4, h6, h8, h10, h12]; rfl⟩
  · left
    exact ⟨x, y, z, mx, my, mz,
      navMsdDecoder_eval buffer msd x y z mx my mz h2 h4 h6 h8 h10 h12⟩

lemma navMsdDecoder_error_shape (buffer : Buffer) (msd : Msd) (e : DecodeError)
    (m : Msd) (h : navMsdDecoder buffer msd = .error (e, m)) : e = .rangeError := by
  rcases navMsdDecoder_cases buffer msd with ⟨x, y, z, mx, my, mz, hok⟩ | ⟨m', herr⟩
  · rw [hok] at h
    cases h
  · rw [herr] at h
    rcases Prod.mk.injEq .. ▸ Except.error.inj h with ⟨he, -⟩
    exact he.symm

lemma navMsdDecoder_ok_shape (buffer : Buffer) (msd m : Msd)
    (h : navMsdDecoder buffer msd = .ok m) :
    ∃ x y z mx my mz, m = navRec buffer msd x y z mx my mz := by
  rcases navMsdDecoder_cases buffer msd with ⟨x, y, z, mx, my, mz, hok⟩ | ⟨m', herr⟩
  · rw [hok] at h
    exact ⟨x, y, z, mx, my, mz, (Except.ok.inj h).symm⟩
  · rw [herr] at h
    cases h

set_option maxRecDepth 4000 in
lemma batteryBits_eq (b : Nat) (hb : b < 256) :
    batteryBits b = if b.testBit 2 then 0x8000 else 0 := by
  revert hb
  revert b
  decide

lemma jsByte_zero (buffer : Buffer) : jsByte buffer 0 = buffer[0]?.map Fin.val := by
  simp [jsByte]

lemma jsByte_one (buffer : Buffer) : jsByte buffer 1 = buffer[1]?.map Fin.val := by
  simp [jsByte]

lemma readUInt16LE_zero (buffer : Buffer) (b0 b1 : Byte)
    (h0 : buffer[0]? = some b0) (h1 : buffer[1]? = some b1) :
    readUInt16LE buffer 0 = some (b0.val + 256 * b1.val) := by
  have e1 : (0 : Int) + 1 = 1 := by omega
  rw [readUInt16LE, jsByte_zero, e1, jsByte_one, h0, h1]
  rfl

lemma length_two_of_jsByte_one (buffer : Buffer) (b : Nat)
    (hb : jsByte buffer 1 = some b) : 1 < buffer.length := by
  by_contra hlen
  rw [jsByte_one, List.getElem?_eq_none (by omega)] at hb
  cases hb

lemma decodeAccelerometer_ok_shape (buffer : Buffer) (msd m : Msd)
    (h : decodeAccelerometer buffer msd = .ok m) :
    ∃ p, m = { msd with position := some p } := by
  rcases h2 : readInt16LE buffer 2 with _ | x <;>
  rcases h4 : readInt16LE buffer 4 with _ | y <;>
  rcases h6 : readInt16LE buffer 6 with _ | z <;>
  simp only [decodeAccelerometer, h2, h4, h6] at h <;>
  first
    | exact ⟨_, (Except.ok.inj h).symm⟩
    | exact Except.noConfusion h

lemma decodeMagneticField_ok_shape (buffer : Buffer) (msd m : Msd)
    (h : decodeMagneticField buffer msd = .ok m) :
    ∃ q, m = { msd with magneticField := some q } := by
  rcases h8 : readInt16LE buffer 8 with _ | x <;>
  rcases h10 : readInt16LE buffer 10 with _ | y <;>
  rcases h12 : readInt16LE buffer 12 with _ | z <;>
  simp only [decodeMagneticField, h8, h10, h12] at h <;>
  first
    | exact ⟨_, (Except.ok.inj h).symm⟩
    | exact Except.noConfusion h

lemma decodeAlarms_ok_shape (buffer : Buffer) (bI eI : Int) (msd m : Msd)
    (h : decodeAlarms buffer bI eI msd = .ok m) :
    ∃ a, m = { msd with alarms := some a } := by
  by_cases heI : eI = -1
  · subst heI
    rw [decodeAlarms_neg1] at h
    exact ⟨_, (Except.ok.inj h).symm⟩
  · rcases hext : readUInt16LE buffer eI with _ | ext <;>
      simp only [decodeAlarms, if_neg heI, hext] at h
    · exact Except.noConfusion h
    · exact ⟨_, (Except.ok.inj h).symm⟩

lemma msdDecoders_eq_some (b : Nat)
    (d : Buffer → Msd → Except (DecodeError × Msd) Msd)
    (h : msdDecoders b = some d) : b = DeviceModel.Nav ∧ d = navMsdDecoder := by
  unfold msdDecoders at h
  by_cases hb : b = DeviceModel.Nav
  · rw [if_pos hb] at h
    exact ⟨hb, (Option.some.inj h).symm⟩
  · rw [if_neg hb] at h
    cases h

lemma decodeMsd_ok_shape (buffer : Buffer) (msd? : Option Msd) (r : Msd)
    (h : decodeMsd buffer msd? = .ok r) :
    ∃ msd0 x y z mx my mz, r = navRec buffer msd0 x y z mx my mz := by
  rcases hbind : (jsByte buffer 1).bind msdDecoders with _ | d
  · rw [decodeMsd_unknown buffer msd? hbind] at h
    cases h
  · rcases Option.bind_eq_some.mp hbind with ⟨b, hb, hd⟩
    rcases msdDecoders_eq_some b d hd with ⟨hbval, rfl⟩
    cases msd? with
    | some msd =>
      rw [decodeMsd_known_some buffer msd b hb _ hd] at h
      rcases navMsdDecoder_cases buffer msd with ⟨x, y, z, mx, my, mz, hok⟩ | ⟨m', herr⟩
      · rw [hok] at h
        simp only [Except.mapError] at h
        exact ⟨msd, x, y, z, mx, my, mz, (Except.ok.inj h).symm⟩
      · rw [herr] at h
        simp [Except.mapError] at h
    | none =>
      rcases hci : readUInt16LE buffer 0 with _ | ci
      · simp only [decodeMsd, hb, Option.some_bind, hd, hci] at h
        cases h
      · rw [decodeMsd_known_none buffer b ci hb _ hd hci] at h
        rcases navMsdDecoder_cases buffer
            { type := some EirDataType.ManufacturerSpecificData,
              typeLabel := some "ManufacturerSpecificData",
              companyIdentifier := some ci } with ⟨x, y, z, mx, my, mz, hok⟩ | ⟨m', herr⟩
        · rw [hok] at h
          simp only [Except.mapError] at h
          exact ⟨_, x, y, z, mx, my, mz, (Except.ok.inj h).symm⟩
        · rw [herr] at h
          simp [Except.mapError] at h

/-! ### Claim theorems -/

/-- C1, counterexample to the claim as stated: for the battery byte 0x02 —
whose bit 0x02 is set — `decodeAlarms` (battery offset present, extended
absent) yields `lowBattery = false`, because `0x02 <<< 13 = 0x4000`, which the
`&&& 0x8000` mask erases; the bit that survives the shift-and-mask is 0x04. -/
theorem claim_C1_counterexample :
    Nat.testBit 0x02 1 = true ∧
    decodeAlarms [0x02] 0 (-1) {} =
      .ok { alarms := some { lowBattery := false } } ∧
    (0x02 : Nat) <<< 13 = 0x4000 ∧
    batteryBits 0x02 = 0 ∧ batteryBits 0x04 = 0x8000 := by decide

/-- C1 (amended): for every value `b` of the byte at a present battery offset,
the battery contribution to the 16-bit alarm mask is `0x8000` exactly when bit
0x04 (bit index 2) of `b` is set and `0` otherwise — so with the extended
offset absent (as in every call the program makes), `alarms.lowBattery` is
true iff bit 0x04 of `b` is set, and no other bit of `b` can influence it. -/
theorem claim_C1 (buffer : Buffer) (batteryI : Int) (msd : Msd) (b : Nat)
    (hb : jsByte buffer batteryI = some b) :
    (∀ v : Nat, v < 256 → batteryBits v = if v.testBit 2 then 0x8000 else 0) ∧
    ∃ a, decodeAlarms buffer batteryI (-1) msd = .ok { msd with alarms := some a } ∧
      a.lowBattery = b.testBit 2 := by
  refine ⟨batteryBits_eq, ?_⟩
  have hne : batteryI ≠ -1 := by
    intro hcon
    rw [hcon, jsByte, if_neg (by decide)] at hb
    cases hb
  refine ⟨_, decodeAlarms_neg1 buffer batteryI msd, ?_⟩
  have hlt := jsByte_val_lt buffer batteryI b hb
  show (((0 ||| batteryBits
      (if batteryI = -1 then 0 else (jsByte buffer batteryI).getD 0)) &&& 0x8000)
    != 0) = b.testBit 2
  rw [if_neg hne, hb, Option.getD_some, batteryBits_eq b hlt]
  cases ht : b.testBit 2 <;> simp [ht]

/-- C1 witness: instantiated at the one-byte buffer `[0x04]`, battery offset 0. -/
theorem claim_C1_witness :
    (∀ v : Nat, v < 256 → batteryBits v = if v.testBit 2 then 0x8000 else 0) ∧
    ∃ a, decodeAlarms [0x04] 0 (-1) {} =
        .ok { ({} : Msd) with alarms := some a } ∧
      a.lowBattery = Nat.testBit 4 2 :=
  claim_C1 [0x04] 0 {} 4 (by decide)

/-- C5: whenever `decodeAlarms` runs with the extended offset absent (−1), the
resulting `alarms` object has exactly the `lowBattery` key and none of the ten
extended flag keys; in particular this holds for every successful run of the
Nav pipeline, which always passes `extendedI = -1`. -/
theorem claim_C5 :
    (∀ (buffer : Buffer) (batteryI : Int) (msd : Msd),
      ∃ a, decodeAlarms buffer batteryI (-1) msd = .ok { msd with alarms := some a } ∧
        extendedAlarmsAbsent a) ∧
    ∀ (buffer : Buffer) (msd m : Msd), navMsdDecoder buffer msd = .ok m →
      ∃ a, m.alarms = some a ∧ extendedAlarmsAbsent a := by
  constructor
  · intro buffer batteryI msd
    exact ⟨_, decodeAlarms_neg1 buffer batteryI msd, by simp [extendedAlarmsAbsent]⟩
  · intro buffer msd m h
    rcases navMsdDecoder_ok_shape buffer msd m h with ⟨x, y, z, mx, my, mz, rfl⟩
    exact ⟨_, rfl, by simp [navRec, extendedAlarmsAbsent]⟩

/-- C5 witness: instantiated at the one-byte buffer `[0x4C]`, battery offset 5. -/
theorem claim_C5_witness :
    ∃ a, decodeAlarms [0x4C] 5 (-1) {} =
        .ok { ({} : Msd) with alarms := some a } ∧ extendedAlarmsAbsent a :=
  claim_C5.1 [0x4C] 5 {}

/-- C10: for every buffer shorter than 2 bytes, the byte at index 1 is absent
(`undefined`), `decodeMsd` fails with the unknown-device-model error carrying
that absent identifier, and the caller-supplied record (carried unchanged in
the error) is untouched: the lookup and raise happen before any record write. -/
theorem claim_C10 (buffer : Buffer) (msd? : Option Msd) (hlen : buffer.length < 2) :
    jsByte buffer 1 = none ∧
    decodeMsd buffer msd? = .error (.unknownDeviceModel none, msd?) := by
  have hj : jsByte buffer 1 = none := by
    rw [jsByte_one, List.getElem?_eq_none (by omega)]
    rfl
  refine ⟨hj, ?_⟩
  have hbind : (jsByte buffer 1).bind msdDecoders = none := by rw [hj]; rfl
  rw [decodeMsd_unknown buffer msd? hbind, hj]

/-- C10 witness: instantiated at the one-byte buffer `[0x4C]` with a
caller-supplied record. -/
theorem claim_C10_witness :
    jsByte [0x4C] 1 = none ∧
    decodeMsd [0x4C] (some { rtto := some true }) =
      .error (.unknownDeviceModel none, some { rtto := some true }) :=
  claim_C10 [0x4C] (some { rtto := some true }) (by decide)

/-- C3: for every buffer whose byte at index 1 matches no registered device
model, `decodeMsd` fails with the unknown-device-model error carrying the
offending identifier; for every buffer whose byte at index 1 is a registered
model, `decodeMsd` never raises that error. -/
theorem claim_C3 (buffer : Buffer) (msd? : Option Msd) (b : Nat)
    (hb : jsByte buffer 1 = some b) :
    (msdDecoders b = none →
      decodeMsd buffer msd? = .error (.unknownDeviceModel (some b), msd?)) ∧
    (msdDecoders b ≠ none →
      ∀ id r, decodeMsd buffer msd? ≠ .error (.unknownDeviceModel id, r)) := by
  constructor
  · intro hnone
    have hbind : (jsByte buffer 1).bind msdDecoders = none := by
      rw [hb, Option.some_bind, hnone]
    rw [decodeMsd_unknown buffer msd? hbind, hb]
  · intro hsome id r hcontra
    rcases Option.ne_none_iff_exists'.mp hsome with ⟨d, hd⟩
    rcases msdDecoders_eq_some b d hd with ⟨hbval, rfl⟩
    have hnav : ∀ msd0 : Msd,
        (navMsdDecoder buffer msd0).mapError (fun em => (em.1, some em.2)) ≠
          .error (.unknownDeviceModel id, r) := by
      intro msd0 hcon
      rcases navMsdDecoder_cases buffer msd0 with ⟨x, y, z, mx, my, mz, hok⟩ | ⟨m', herr⟩
      · rw [hok] at hcon
        exact Except.noConfusion hcon
      · rw [herr] at hcon
        simp [Except.mapError] at hcon
    cases msd? with
    | some msd =>
      rw [decodeMsd_known_some buffer msd b hb _ hd] at hcontra
      exact hnav msd hcontra
    | none =>
      have hlen := length_two_of_jsByte_one buffer b hb
      obtain ⟨ci, hci⟩ := readUInt16LE_of_lt buffer 0 (by decide) (by omega)
      rw [decodeMsd_known_none buffer b _ hb _ hd hci] at hcontra
      exact hnav _ hcontra

/-- C3 witness: instantiated at the two-byte buffer `[0x4C, 0x89]`, whose byte
at index 1 is the registered Nav model. -/
theorem claim_C3_witness :
    (msdDecoders 0x89 = none →
      decodeMsd [0x4C, 0x89] none = .error (.unknownDeviceModel (some 0x89), none)) ∧
    (msdDecoders 0x89 ≠ none →
      ∀ id r, decodeMsd [0x4C, 0x89] none ≠ .error (.unknownDeviceModel id, r)) :=
  claim_C3 [0x4C, 0x89] none 0x89 (by decide)

/-- C4, counterexample to the claim as stated ("in no case does it raise an
error"): with no previously installed decoder, the installed wrapper on the
two-byte buffer `[0x00, 0x89]` (a registered model byte, but a buffer too
short for the Nav fields) raises a range error. -/
theorem claim_C4_counterexample :
    ((registerManufacturerSpecificDataDecoder (fun _ => none))
        EirDataType.ManufacturerSpecificData).map (fun f => f [0x00, 0x89] {}) =
      some (.error (.rangeError,
        { model := some 0x89, modelLabel := some "iNode Nav" })) := by decide

/-- C4 (amended): the decoder installed by
`registerManufacturerSpecificDataDecoder`, for every buffer and record: if the
byte at index 1 is a registered model it invokes that model's decoder;
otherwise, if a decoder was previously installed at the
manufacturer-specific-data slot, it invokes that fallback; otherwise it does
nothing (returns the record unchanged, with no error).  The wrapper itself
never raises — in particular it never raises the unknown-device-model error —
but an error raised by the invoked delegate (model decoder or fallback)
propagates, e.g. the range error of a too-short buffer. -/
theorem claim_C4 (eirDataTypeDecoders : EirRegistry) (buffer : Buffer) (msd : Msd) :
    ∃ f, registerManufacturerSpecificDataDecoder eirDataTypeDecoders
        EirDataType.ManufacturerSpecificData = some f ∧
      f buffer msd =
        match (jsByte buffer 1).bind msdDecoders with
        | some deviceModelDecoder => deviceModelDecoder buffer msd
        | none =>
          match eirDataTypeDecoders EirDataType.ManufacturerSpecificData with
          | some originalDecoder => originalDecoder buffer msd
          | none => .ok msd :=
  ⟨_, rfl, rfl⟩

/-- C2, counterexample to the claim as stated: the specification's 13-byte
example buffer has 0x00 — not the model byte 0x89 — at index 1 (the company
identifier 0x004C occupies bytes 0–1), so `decodeMsd` fails with
`UnknownDeviceModel(0)` instead of succeeding. -/
theorem claim_C2_counterexample :
    decodeMsd specExampleBuffer none =
      .error (.unknownDeviceModel (some 0x00), none) := by decide

/-- C2 (amended): on the 14-byte buffer laid out as the code reads it —
`[0x4C, 0x89, 0x01, 0x00, 0xF8, 0xFF, 0x00, 0x00, 0x10, 0x00, 0x00, 0x00,
0x00, 0x00]`, with the model byte 0x89 at index 1 — `decodeMsd` with no
pre-existing record succeeds and yields exactly: companyIdentifier 0x894C
(bytes 0–1 little-endian), model 0x89, position (0.0000625, −0.0005, 0),
magneticField (0.0016, 0, 0), rtto = false, and alarms.lowBattery = true
(byte 0 = 0x4C has bit 0x04 set, the bit `(b <<< 13) &&& 0x8000` extracts). -/
theorem claim_C2 :
    decodeMsd navExampleBuffer none = .ok
      { type := some EirDataType.ManufacturerSpecificData,
        typeLabel := some "ManufacturerSpecificData",
        companyIdentifier := some 0x894C,
        model := some 0x89,
        modelLabel := some "iNode Nav",
        position := some ⟨0.0000625, -0.0005, 0⟩,
        magneticField := some ⟨0.0016, 0, 0⟩,
        rtto := some false,
        alarms := some { lowBattery := true } } := by
  rw [decodeMsd_known_none navExampleBuffer 0x89 0x894C (by decide) navMsdDecoder rfl
      (by decide),
    navMsdDecoder_eval navExampleBuffer _ 1 (-8) 0 16 0 0 (by decide) (by decide)
      (by decide) (by decide) (by decide) (by decide)]
  show Except.ok _ = _
  refine congrArg Except.ok ?_
  have hrt : (((jsByte navExampleBuffer 0).getD 0 &&& 0x02) != 0) = false := by decide
  have hlb : (((0 ||| batteryBits ((jsByte navExampleBuffer 0).getD 0)) &&& 0x8000)
      != 0) = true := by decide
  simp only [navRec, hrt, hlb]
  norm_num [Msd.mk.injEq, Vec3.mk.injEq, Alarms.mk.injEq, DeviceModel.Nav]

/-- C6: for every buffer long enough for the Nav pipeline (14 bytes), the
decoded `position` components equal the signed 16-bit little-endian integers
at offsets 2, 4, 6 each divided (exactly, in ℚ) by 16000, and the decoded
`magneticField` components equal the signed 16-bit little-endian integers at
offsets 8, 10, 12 each divided by 10000. -/
theorem claim_C6 (buffer : Buffer) (msd : Msd) (hlen : 14 ≤ buffer.length) :
    ∃ m x y z mx my mz,
      navMsdDecoder buffer msd = .ok m ∧
      readInt16LE buffer 2 = some x ∧ readInt16LE buffer 4 = some y ∧
      readInt16LE buffer 6 = some z ∧ readInt16LE buffer 8 = some mx ∧
      readInt16LE buffer 10 = some my ∧ readInt16LE buffer 12 = some mz ∧
      m.position = some ⟨(x : ℚ) / 16000, (y : ℚ) / 16000, (z : ℚ) / 16000⟩ ∧
      m.magneticField = some ⟨(mx : ℚ) / 10000, (my : ℚ) / 10000, (mz : ℚ) / 10000⟩ := by
  obtain ⟨x, s2⟩ := readInt16LE_of_lt buffer 2 (by decide) (by omega)
  obtain ⟨y, s4⟩ := readInt16LE_of_lt buffer 4 (by decide) (by omega)
  obtain ⟨z, s6⟩ := readInt16LE_of_lt buffer 6 (by decide) (by omega)
  obtain ⟨mx, s8⟩ := readInt16LE_of_lt buffer 8 (by decide) (by omega)
  obtain ⟨my, s10⟩ := readInt16LE_of_lt buffer 10 (by decide) (by omega)
  obtain ⟨mz, s12⟩ := readInt16LE_of_lt buffer 12 (by decide) (by omega)
  exact ⟨_, _, _, _, _, _, _,
    navMsdDecoder_eval buffer msd _ _ _ _ _ _ s2 s4 s6 s8 s10 s12,
    s2, s4, s6, s8, s10, s12, rfl, rfl⟩

/-- C6 witness: instantiated at the 14-byte example buffer. -/
theorem claim_C6_witness :
    ∃ m x y z mx my mz,
      navMsdDecoder navExampleBuffer {} = .ok m ∧
      readInt16LE navExampleBuffer 2 = some x ∧
      readInt16LE navExampleBuffer 4 = some y ∧
      readInt16LE navExampleBuffer 6 = some z ∧
      readInt16LE navExampleBuffer 8 = some mx ∧
      readInt16LE navExampleBuffer 10 = some my ∧
      readInt16LE navExampleBuffer 12 = some mz ∧
      m.position = some ⟨(x : ℚ) / 16000, (y : ℚ) / 16000, (z : ℚ) / 16000⟩ ∧
      m.magneticField = some ⟨(mx : ℚ) / 10000, (my : ℚ) / 10000, (mz : ℚ) / 10000⟩ :=
  claim_C6 navExampleBuffer {} (by decide)

/-- C7: for every buffer whose model byte (index 1) is registered: called
without an existing record, `decodeMsd` succeeds only with a record carrying
the manufacturer-specific-data type tag and companyIdentifier equal to the
little-endian 16-bit value of bytes 0–1; called with an existing record, the
returned record's companyIdentifier is the supplied record's — `decodeMsd`
never sets it in that case. -/
theorem claim_C7 (buffer : Buffer) (b0 b1 : Byte)
    (h0 : buffer[0]? = some b0) (h1 : buffer[1]? = some b1)
    (hreg : (msdDecoders b1.val).isSome = true) :
    (∀ r, decodeMsd buffer none = .ok r →
      r.type = some EirDataType.ManufacturerSpecificData ∧
      r.companyIdentifier = some (b0.val + 256 * b1.val)) ∧
    ∀ msd r, decodeMsd buffer (some msd) = .ok r →
      r.companyIdentifier = msd.companyIdentifier := by
  have hb : jsByte buffer 1 = some b1.val := by
    rw [jsByte_one, h1]
    rfl
  rcases Option.isSome_iff_exists.mp hreg with ⟨d, hd⟩
  rcases msdDecoders_eq_some _ _ hd with ⟨hbval, rfl⟩
  have hci := readUInt16LE_zero buffer b0 b1 h0 h1
  constructor
  · intro r hr
    rw [decodeMsd_known_none buffer b1.val _ hb _ hd hci] at hr
    rcases navMsdDecoder_cases buffer
        { type := some EirDataType.ManufacturerSpecificData,
          typeLabel := some "ManufacturerSpecificData",
          companyIdentifier := some (b0.val + 256 * b1.val) } with
      ⟨x, y, z, mx, my, mz, hok⟩ | ⟨m', herr⟩
    · rw [hok] at hr
      simp only [Except.mapError] at hr
      obtain rfl := Except.ok.inj hr
      exact ⟨rfl, rfl⟩
    · rw [herr] at hr
      simp [Except.mapError] at hr
  · intro msd r hr
    rw [decodeMsd_known_some buffer msd b1.val hb _ hd] at hr
    rcases navMsdDecoder_cases buffer msd with ⟨x, y, z, mx, my, mz, hok⟩ | ⟨m', herr⟩
    · rw [hok] at hr
      simp only [Except.mapError] at hr
      obtain rfl := Except.ok.inj hr
      rfl
    · rw [herr] at hr
      simp [Except.mapError] at hr

/-- C7 witness: instantiated at the 14-byte example buffer, whose bytes 0–1
are 0x4C, 0x89. -/
theorem claim_C7_witness :
    (∀ r, decodeMsd navExampleBuffer none = .ok r →
      r.type = some EirDataType.ManufacturerSpecificData ∧
      r.companyIdentifier = some ((0x4C : Byte).val + 256 * (0x89 : Byte).val)) ∧
    ∀ msd r, decodeMsd navExampleBuffer (some msd) = .ok r →
      r.companyIdentifier = msd.companyIdentifier :=
  claim_C7 navExampleBuffer 0x4C 0x89 (by decide) (by decide) (by decide)

/-- C8: two sufficiently long buffers that agree on bytes 0 through 13 decode
(through the Nav pipeline, from any starting records) to identical `position`,
`magneticField`, `rtto` and `alarms` values: no Nav field decoder reads any
byte outside offsets 0–13. -/
theorem claim_C8 (b1 b2 : Buffer) (m1 m2 r1 r2 : Msd)
    (hl1 : 14 ≤ b1.length) (hl2 : 14 ≤ b2.length)
    (hpre : b1.take 14 = b2.take 14)
    (e1 : navMsdDecoder b1 m1 = .ok r1) (e2 : navMsdDecoder b2 m2 = .ok r2) :
    r1.position = r2.position ∧ r1.magneticField = r2.magneticField ∧
    r1.rtto = r2.rtto ∧ r1.alarms = r2.alarms := by
  obtain ⟨x, s2⟩ := readInt16LE_of_lt b1 2 (by decide) (by omega)
  obtain ⟨y, s4⟩ := readInt16LE_of_lt b1 4 (by decide) (by omega)
  obtain ⟨z, s6⟩ := readInt16LE_of_lt b1 6 (by decide) (by omega)
  obtain ⟨mx, s8⟩ := readInt16LE_of_lt b1 8 (by decide) (by omega)
  obtain ⟨my, s10⟩ := readInt16LE_of_lt b1 10 (by decide) (by omega)
  obtain ⟨mz, s12⟩ := readInt16LE_of_lt b1 12 (by decide) (by omega)
  have c0 : jsByte b1 0 = jsByte b2 0 := jsByte_congr b1 b2 14 hpre 0 (by decide)
  have c2 := readInt16LE_congr b1 b2 14 hpre 2 (by decide)
  have c4 := readInt16LE_congr b1 b2 14 hpre 4 (by decide)
  have c6 := readInt16LE_congr b1 b2 14 hpre 6 (by decide)
  have c8 := readInt16LE_congr b1 b2 14 hpre 8 (by decide)
  have c10 := readInt16LE_congr b1 b2 14 hpre 10 (by decide)
  have c12 := readInt16LE_congr b1 b2 14 hpre 12 (by decide)
  have ev1 := navMsdDecoder_eval b1 m1 _ _ _ _ _ _ s2 s4 s6 s8 s10 s12
  have ev2 := navMsdDecoder_eval b2 m2 _ _ _ _ _ _ (c2.symm.trans s2)
    (c4.symm.trans s4) (c6.symm.trans s6) (c8.symm.trans s8)
    (c10.symm.trans s10) (c12.symm.trans s12)
  obtain rfl := Except.ok.inj (e1.symm.trans ev1)
  obtain rfl := Except.ok.inj (e2.symm.trans ev2)
  refine ⟨rfl, rfl, ?_, ?_⟩
  · show some (((jsByte b1 0).getD 0 &&& 0x02) != 0) =
      some (((jsByte b2 0).getD 0 &&& 0x02) != 0)
    rw [c0]
  · show some ({ lowBattery :=
        ((0 ||| batteryBits ((jsByte b1 0).getD 0)) &&& 0x8000) != 0 } : Alarms) =
      some { lowBattery :=
        ((0 ||| batteryBits ((jsByte b2 0).getD 0)) &&& 0x8000) != 0 }
    rw [c0]

/-- C8 witness: the 15-byte buffers that extend the example buffer by the
trailing byte 0xFF resp. 0x00 agree on bytes 0–13 and decode identically. -/
theorem claim_C8_witness :
    (navRec altBufferFF {} 1 (-8) 0 16 0 0).position =
      (navRec altBuffer00 {} 1 (-8) 0 16 0 0).position ∧
    (navRec altBufferFF {} 1 (-8) 0 16 0 0).magneticField =
      (navRec altBuffer00 {} 1 (-8) 0 16 0 0).magneticField ∧
    (navRec altBufferFF {} 1 (-8) 0 16 0 0).rtto =
      (navRec altBuffer00 {} 1 (-8) 0 16 0 0).rtto ∧
    (navRec altBufferFF {} 1 (-8) 0 16 0 0).alarms =
      (navRec altBuffer00 {} 1 (-8) 0 16 0 0).alarms :=
  claim_C8 altBufferFF altBuffer00 {} {} _ _ (by decide) (by decide) (by decide)
    (navMsdDecoder_eval altBufferFF {} 1 (-8) 0 16 0 0 (by decide) (by decide)
      (by decide) (by decide) (by decide) (by decide))
    (navMsdDecoder_eval altBuffer00 {} 1 (-8) 0 16 0 0 (by decide) (by decide)
      (by decide) (by decide) (by decide) (by decide))

/-- C9: every record returned by a successful `decodeMsd` (with or without a
caller-supplied record) has model = 0x89 and modelLabel = "iNode Nav" — set at
the start of the Nav pipeline — and each subsequent field decoder
(accelerometer, magnetic field, rtto, alarms) leaves both fields unchanged. -/
theorem claim_C9 :
    (∀ (buffer : Buffer) (msd? : Option Msd) (r : Msd),
      decodeMsd buffer msd? = .ok r →
      r.model = some 0x89 ∧ r.modelLabel = some "iNode Nav") ∧
    (∀ (buffer : Buffer) (msd m : Msd), decodeAccelerometer buffer msd = .ok m →
      m.model = msd.model ∧ m.modelLabel = msd.modelLabel) ∧
    (∀ (buffer : Buffer) (msd m : Msd), decodeMagneticField buffer msd = .ok m →
      m.model = msd.model ∧ m.modelLabel = msd.modelLabel) ∧
    (∀ (buffer : Buffer) (i : Int) (msd : Msd),
      (decodeRtto buffer i msd).model = msd.model ∧
      (decodeRtto buffer i msd).modelLabel = msd.modelLabel) ∧
    (∀ (buffer : Buffer) (bI eI : Int) (msd m : Msd),
      decodeAlarms buffer bI eI msd = .ok m →
      m.model = msd.model ∧ m.modelLabel = msd.modelLabel) := by
  refine ⟨?_, ?_, ?_, ?_, ?_⟩
  · intro buffer msd? r h
    rcases decodeMsd_ok_shape buffer msd? r h with ⟨msd0, x, y, z, mx, my, mz, rfl⟩
    exact ⟨rfl, rfl⟩
  · intro buffer msd m h
    rcases decodeAccelerometer_ok_shape buffer msd m h with ⟨p, rfl⟩
    exact ⟨rfl, rfl⟩
  · intro buffer msd m h
    rcases decodeMagneticField_ok_shape buffer msd m h with ⟨q, rfl⟩
    exact ⟨rfl, rfl⟩
  · intro buffer i msd
    exact ⟨rfl, rfl⟩
  · intro buffer bI eI msd m h
    rcases decodeAlarms_ok_shape buffer bI eI msd m h with ⟨a, rfl⟩
    exact ⟨rfl, rfl⟩

/-- C9 witness: instantiated at the decode of the 14-byte example buffer with
no caller-supplied record. -/
theorem claim_C9_witness :
    (navRec navExampleBuffer
      { type := some EirDataType.ManufacturerSpecificData,
        typeLabel := some "ManufacturerSpecificData",
        companyIdentifier := some 0x894C } 1 (-8) 0 16 0 0).model = some 0x89 ∧
    (navRec navExampleBuffer
      { type := some EirDataType.ManufacturerSpecificData,
        typeLabel := some "ManufacturerSpecificData",
        companyIdentifier := some 0x894C } 1 (-8) 0 16 0 0).modelLabel =
      some "iNode Nav" :=
  claim_C9.1 navExampleBuffer none _ (by
    rw [decodeMsd_known_none navExampleBuffer 0x89 0x894C (by decide) navMsdDecoder rfl
        (by decide),
      navMsdDecoder_eval navExampleBuffer _ 1 (-8) 0 16 0 0 (by decide) (by decide)
        (by decide) (by decide) (by decide) (by decide)]
    rfl)

end INode
